import Mathlib

/-!
Shallow embedding of the fx-alert-bot push-registration page scripts and
service worker, with theorems checking the specification claims.

The repository has two page-script variants (src/unnamed/part_000 and
src/unnamed/part_001), each defining `setStatus` and an async `registerPush`
workflow, plus a pass-through service worker (src/docs/sw.js).

Modelling conventions:
- JS strings used as tokens / store keys are `List Char`; UI message strings
  are Lean `String`.
- Each external asynchronous call (service-worker readiness, permission
  prompt, token issuance, Firestore write) is an oracle field of `Env`
  giving that call's outcome for the run.
- A thrown JS exception is the `thrown` field of a `Run`; the top-level
  try/catch is `catchWrap`.
- The Firestore client and document store are external to the repository;
  their merge-write upsert semantics (`docSetMerge`) is modelled from the
  spec (keyed by token value, upsert/merge semantics).
-/

namespace FxAlert

/-- Outcome of `Notification.requestPermission()`:
tri-state {granted, denied, default/dismissed}. -/
inductive Perm where
  | granted
  | denied
  | dflt
deriving DecidableEq, Repr

/-- A DOM element as the scripts use it: a text content and a style color. -/
structure Element where
  textContent : String
  color : String
deriving DecidableEq, Repr

/-- The DOM surface: `document.getElementById` for ids "status",
"tokenPreview" and "btn" may each return an element or null. -/
structure Dom where
  status : Option Element
  tokenPreview : Option Element
  btn : Option Element
deriving DecidableEq, Repr

/-- The subscriber record written to Firestore:
`{ token, ua: navigator.userAgent, createdAt: new Date().toISOString() }`. -/
structure SubscriberRecord where
  token : List Char
  ua : String
  createdAt : String
deriving DecidableEq, Repr

/-- Observable external effects performed by a run of the workflow. -/
inductive Event where
  | getTokenCall
  | consoleLog (msg : String)
  | firestoreSet (key : List Char) (rcd : SubscriberRecord)
  | consoleError (msg : String)
deriving DecidableEq, Repr

/-- Process-wide SDK state: whether `firebase.initializeApp` has run. -/
structure GState where
  appInitialized : Bool
deriving DecidableEq, Repr

instance {ε α : Type} [DecidableEq ε] [DecidableEq α] : DecidableEq (Except ε α) := fun x y =>
  match x, y with
  | .error a, .error b =>
      if h : a = b then isTrue (by subst h; rfl)
      else isFalse (by intro hh; cases hh; exact h rfl)
  | .error _, .ok _ => isFalse (by intro hh; cases hh)
  | .ok _, .error _ => isFalse (by intro hh; cases hh)
  | .ok a, .ok b =>
      if h : a = b then isTrue (by subst h; rfl)
      else isFalse (by intro hh; cases hh; exact h rfl)

/-- Oracle for every external call a run of the workflow can make. -/
structure Env where
  firebaseLoaded : Bool
  swSupported : Bool
  swReady : Except String Unit
  swRegister : Except String Unit
  permission : Perm
  getTokenResult : Except String (List Char)
  writeResult : Except String Unit
  userAgent : String
  now : String
deriving DecidableEq, Repr

/-- Result of one invocation of `registerPush`: final SDK state, final DOM,
the external effects performed, and the exception escaping the invocation
(if any). -/
structure Run where
  g : GState
  dom : Dom
  events : List Event
  thrown : Option String
deriving DecidableEq, Repr

/-- Modelled from the spec: `firebase.initializeApp` is process-wide state
with a single-init lifecycle (spec §9); the Firebase SDK itself is not part
of this repository. A second initialization of the default app violates the
lifecycle and raises an error. -/
def initializeApp (g : GState) : Except String GState :=
  if g.appInitialized then
    .error "Firebase app already initialized (duplicate-app)"
  else
    .ok { appInitialized := true }

/-- `setStatus(msg, ok)` from both part_000 (lines 23-28) and part_001
(lines 41-46), which define it identically: null status element is a no-op,
otherwise write `상태: ${msg}` and a green/red color. -/
def setStatus (dom : Dom) (msg : String) (ok : Bool) : Dom :=
  match dom.status with
  | none => dom
  | some _ =>
      { dom with
        status := some { textContent := "상태: " ++ msg,
                         color := if ok then "#7CFF7C" else "#FF7C7C" } }

/-- Index normalization of JavaScript `String.prototype.slice`:
a negative index counts from the end, clamped to `[0, len]`. -/
def jsSliceIndex (len : Nat) (i : Int) : Nat :=
  if i < 0 then ((len : Int) + i).toNat
  else min i.toNat len

/-- JavaScript `s.slice(a, b)` on a string modelled as `List Char`. -/
def jsSlice (s : List Char) (a b : Int) : List Char :=
  let na := jsSliceIndex s.length a
  let nb := jsSliceIndex s.length b
  (s.drop na).take (nb - na)

/-- JavaScript one-argument `s.slice(a)`, i.e. `s.slice(a, s.length)`. -/
def jsSliceFrom (s : List Char) (a : Int) : List Char :=
  jsSlice s a (s.length : Int)

/-- The preview text `token.slice(0, 12) + "..." + token.slice(-8)`
(part_000 line 33, part_001 line 87). -/
def previewString (token : List Char) : String :=
  String.mk (jsSlice token 0 12 ++ "...".data ++ jsSliceFrom token (-8))

/-- `setTokenPreview(token)` from part_000 (lines 30-34): null element is a
no-op; otherwise show the elided preview for a truthy token and "-" for a
falsy (empty) one. -/
def setTokenPreview (dom : Dom) (token : List Char) : Dom :=
  match dom.tokenPreview with
  | none => dom
  | some el =>
      { dom with
        tokenPreview := some
          { el with textContent := if token = [] then "-" else previewString token } }

/-- The inline preview assignment of part_001 (lines 85-88):
`if (preview) preview.textContent = token.slice(0,12) + "..." + token.slice(-8)`. -/
def setTokenPreviewInline (dom : Dom) (token : List Char) : Dom :=
  match dom.tokenPreview with
  | none => dom
  | some el =>
      { dom with tokenPreview := some { el with textContent := previewString token } }

/-- The try-block of part_000's `registerPush` (lines 37-82). -/
def tryBody0 (env : Env) (g : GState) (dom : Dom) : Run :=
  let dom := setStatus dom "초기화 중..." true
  if env.firebaseLoaded = false then
    ⟨g, dom, [], some "firebase SDK not loaded"⟩
  else
    match initializeApp g with
    | .error e => ⟨g, dom, [], some e⟩
    | .ok g =>
      if env.swSupported = false then
        ⟨g, dom, [], some "ServiceWorker not supported"⟩
      else
        let dom := setStatus dom "Service Worker 준비 대기..." true
        match env.swReady with
        | .error e => ⟨g, dom, [], some e⟩
        | .ok _ =>
          let dom := setStatus dom "알림 권한 요청 중..." true
          if env.permission ≠ Perm.granted then
            let dom := setStatus dom "알림 권한이 거부되었습니다" false
            ⟨g, dom, [], none⟩
          else
            let dom := setStatus dom "푸시 토큰 발급 중..." true
            match env.getTokenResult with
            | .error e => ⟨g, dom, [Event.getTokenCall], some e⟩
            | .ok token =>
              if token = [] then
                ⟨g, dom, [Event.getTokenCall], some "token is empty"⟩
              else
                let events := [Event.getTokenCall,
                               Event.consoleLog ("FCM TOKEN: " ++ String.mk token)]
                let dom := setTokenPreview dom token
                let dom := setStatus dom "Firestore에 저장 중..." true
                let rcd : SubscriberRecord :=
                  { token := token, ua := env.userAgent, createdAt := env.now }
                let events := events ++ [Event.firestoreSet token rcd]
                match env.writeResult with
                | .error e => ⟨g, dom, events, some e⟩
                | .ok _ =>
                  let dom := setStatus dom "등록 완료 ✅ 이제 푸시를 받을 수 있습니다!" true
                  ⟨g, dom, events, none⟩

/-- The catch-block shared by both variants: `console.error(e)` then
`setStatus("오류: " + e.message, false)`; the exception stops propagating. -/
def catchWrap (r : Run) : Run :=
  match r.thrown with
  | none => r
  | some e =>
      { r with
        dom := setStatus r.dom ("오류: " ++ e) false,
        events := r.events ++ [Event.consoleError e],
        thrown := none }

/-- part_000's `registerPush` (lines 37-87): the try-block wrapped by the
top-level catch. -/
def registerPush000 (env : Env) (g : GState) (dom : Dom) : Run :=
  catchWrap (tryBody0 env g dom)

/-- part_001's `registerServiceWorker` (lines 30-36). -/
def registerServiceWorker (env : Env) : Except String Unit :=
  if env.swSupported = false then .error "Service Worker not supported"
  else env.swRegister

/-- The try-block of part_001's `registerPush` (lines 51-89). The SDK is
initialized at module load in this variant, so the body never touches the
process-wide state. -/
def tryBody1 (env : Env) (g : GState) (dom : Dom) : Run :=
  let dom := setStatus dom "Service Worker 등록 중..." true
  match registerServiceWorker env with
  | .error e => ⟨g, dom, [], some e⟩
  | .ok _ =>
    let dom := setStatus dom "알림 권한 요청 중..." true
    if env.permission ≠ Perm.granted then
      let dom := setStatus dom "알림 권한이 거부되었습니다" false
      ⟨g, dom, [], none⟩
    else
      let dom := setStatus dom "푸시 토큰 발급 중..." true
      match env.getTokenResult with
      | .error e => ⟨g, dom, [Event.getTokenCall], some e⟩
      | .ok token =>
        if token = [] then
          let dom := setStatus dom "토큰 발급 실패" false
          ⟨g, dom, [Event.getTokenCall], none⟩
        else
          let events := [Event.getTokenCall,
                         Event.consoleLog ("FCM TOKEN: " ++ String.mk token)]
          let dom := setStatus dom "Firestore에 토큰 저장 중..." true
          let rcd : SubscriberRecord :=
            { token := token, ua := env.userAgent, createdAt := env.now }
          let events := events ++ [Event.firestoreSet token rcd]
          match env.writeResult with
          | .error e => ⟨g, dom, events, some e⟩
          | .ok _ =>
            let dom := setStatus dom "등록 완료 ✅ 이제 푸시를 받을 수 있습니다!" true
            let dom := setTokenPreviewInline dom token
            ⟨g, dom, events, none⟩

/-- part_001's `registerPush` (lines 51-94). -/
def registerPush001 (env : Env) (g : GState) (dom : Dom) : Run :=
  catchWrap (tryBody1 env g dom)

/-- part_001's module top level (lines 22-25): `firebase.initializeApp`
runs once at load. -/
def part001ModuleInit (g : GState) : Except String GState :=
  initializeApp g

/-- The click listeners registered by the DOMContentLoaded handler
(part_000 lines 90-93, part_001 lines 99-104): absent button means none. -/
inductive Listener where
  | clickRegisterPush
deriving DecidableEq, Repr

/-- The DOMContentLoaded wiring: `const btn = document.getElementById("btn");
if (btn) btn.addEventListener("click", registerPush)`. -/
def wireButton (dom : Dom) : List Listener :=
  match dom.btn with
  | none => []
  | some _ => [Listener.clickRegisterPush]

/-- The remote document store: the "subscribers" collection as an
association list from document key to document. -/
def Store := List (List Char × SubscriberRecord)

/-- Modelled from the spec: Firestore merge-write of a full record. The
program always supplies all three fields `{token, ua, createdAt}`, so the
merged document carries exactly the written fields (spec §3: merge-write
"updates only specified fields"). -/
def mergeRecord (_old rcd : SubscriberRecord) : SubscriberRecord := rcd

/-- Modelled from the spec: `db.collection("subscribers").doc(key).set(rcd,
{merge: true})` — keyed upsert with merge semantics (spec §3, §6); the
Firestore backend is external to the repository. -/
def docSetMerge : Store → List Char → SubscriberRecord → Store
  | [], key, rcd => [(key, rcd)]
  | (k, old) :: rest, key, rcd =>
      if k = key then (key, mergeRecord old rcd) :: rest
      else (k, old) :: docSetMerge rest key rcd

/-- The number of records stored under a given key. -/
def countKey : Store → List Char → Nat
  | [], _ => 0
  | (k0, _) :: rest, key => (if k0 = key then 1 else 0) + countKey rest key

/-- A network request, as far as the service worker observes it. -/
structure Request where
  url : String
deriving DecidableEq, Repr

/-- A network response. -/
structure Response where
  body : String
deriving DecidableEq, Repr

/-- A fetch event delivered to the service worker. -/
structure FetchEvent where
  request : Request
deriving DecidableEq, Repr

/-- What the fetch handler does with the event. -/
inductive FetchAction where
  | respondWith (resp : Response)
deriving DecidableEq, Repr

/-- The response carried by a fetch action. -/
def FetchAction.response : FetchAction → Response
  | .respondWith r => r

/-- The fetch listener of src/docs/sw.js (lines 13-16):
`event.respondWith(fetch(event.request))`, where `net` is the network. -/
def swFetchListener (net : Request → Response) (event : FetchEvent) : FetchAction :=
  .respondWith (net event.request)

/-! ### Concrete inputs used to exercise the model -/

/-- A fresh process: the SDK has not been initialized yet. -/
def gFresh : GState := ⟨false⟩

/-- A DOM where all three elements ("status", "tokenPreview", "btn") exist. -/
def domFull : Dom := ⟨some ⟨"", ""⟩, some ⟨"-", ""⟩, some ⟨"등록", ""⟩⟩

/-- A DOM where all three elements are absent. -/
def domEmpty : Dom := ⟨none, none, none⟩

/-- The 24-character token from the spec's test property. -/
def sampleToken : List Char := "abcdefghijklmnopqrstuvwx".data

/-- An environment in which every external call succeeds. -/
def envAllSuccess : Env :=
  { firebaseLoaded := true, swSupported := true,
    swReady := .ok (), swRegister := .ok (),
    permission := .granted, getTokenResult := .ok sampleToken,
    writeResult := .ok (), userAgent := "UA", now := "2025-01-01T00:00:00Z" }

/-- As `envAllSuccess` but the user declines the permission prompt. -/
def envDenied : Env := { envAllSuccess with permission := .denied }

/-- As `envAllSuccess` but the push provider returns an empty token. -/
def envEmptyTok : Env := { envAllSuccess with getTokenResult := .ok [] }

/-- As `envAllSuccess` but the Firebase SDK script never loaded. -/
def envNoFb : Env := { envAllSuccess with firebaseLoaded := false }

/-- As `envAllSuccess` but the Firestore write rejects. -/
def envWriteFail : Env := { envAllSuccess with writeResult := .error "network write failed" }

/-! ### Helper lemmas -/

theorem catchWrap_thrown (r : Run) : (catchWrap r).thrown = none := by
  unfold catchWrap
  cases h : r.thrown <;> simp [h]

theorem catchWrap_dom_of_some (r : Run) (e : String) (h : r.thrown = some e) :
    (catchWrap r).dom = setStatus r.dom ("오류: " ++ e) false := by
  unfold catchWrap
  rw [h]

theorem catchWrap_write_mem (r : Run) (k : List Char) (rcd : SubscriberRecord) :
    Event.firestoreSet k rcd ∈ (catchWrap r).events ↔
      Event.firestoreSet k rcd ∈ r.events := by
  unfold catchWrap
  cases h : r.thrown <;> simp

@[simp]
theorem setStatus_tokenPreview (d : Dom) (m : String) (o : Bool) :
    (setStatus d m o).tokenPreview = d.tokenPreview := by
  unfold setStatus
  cases h : d.status <;> simp

@[simp]
theorem setStatus_btn (d : Dom) (m : String) (o : Bool) :
    (setStatus d m o).btn = d.btn := by
  unfold setStatus
  cases h : d.status <;> simp

theorem jsSlice_zero_twelve (t : List Char) : jsSlice t 0 12 = t.take 12 := by
  show (t.drop (jsSliceIndex t.length 0)).take
      (jsSliceIndex t.length 12 - jsSliceIndex t.length 0) = t.take 12
  have h0 : jsSliceIndex t.length 0 = 0 := by
    unfold jsSliceIndex
    norm_num
  have h12 : jsSliceIndex t.length 12 = min 12 t.length := rfl
  rw [h0, h12, List.drop_zero, Nat.sub_zero, List.take_eq_take]
  omega

theorem jsSliceFrom_neg_eight (t : List Char) :
    jsSliceFrom t (-8) = t.drop (t.length - 8) := by
  show (t.drop (jsSliceIndex t.length (-8))).take
      (jsSliceIndex t.length (t.length : Int) - jsSliceIndex t.length (-8)) =
    t.drop (t.length - 8)
  have hn : jsSliceIndex t.length (-8) = t.length - 8 := by
    unfold jsSliceIndex
    rw [if_pos (by omega)]
    omega
  have hl : jsSliceIndex t.length (t.length : Int) = t.length := by
    unfold jsSliceIndex
    rw [if_neg (by omega)]
    simp
  rw [hn, hl]
  exact List.take_of_length_le (by simp)

theorem previewString_spec (t : List Char) :
    previewString t = String.mk (t.take 12 ++ "...".data ++ t.drop (t.length - 8)) := by
  unfold previewString
  rw [jsSlice_zero_twelve, jsSliceFrom_neg_eight]

theorem docSetMerge_idem (s : Store) (k : List Char) (r : SubscriberRecord) :
    docSetMerge (docSetMerge s k r) k r = docSetMerge s k r := by
  induction s with
  | nil => simp [docSetMerge, mergeRecord]
  | cons p rest ih =>
    obtain ⟨k0, r0⟩ := p
    by_cases h : k0 = k
    · subst h
      simp [docSetMerge, mergeRecord]
    · simp [docSetMerge, h, ih]

theorem countKey_docSetMerge (s : Store) (k : List Char) (r : SubscriberRecord)
    (h : countKey s k ≤ 1) : countKey (docSetMerge s k r) k = 1 := by
  induction s with
  | nil => simp [docSetMerge, countKey]
  | cons p rest ih =>
    obtain ⟨k0, r0⟩ := p
    by_cases hk : k0 = k
    · subst hk
      simp [docSetMerge, countKey, mergeRecord] at h ⊢
      omega
    · simp only [countKey, if_neg hk] at h
      simp [docSetMerge, countKey, hk]
      exact ih (by omega)

theorem tryBody0_write_mem (env : Env) (g : GState) (dom : Dom) (k : List Char)
    (rcd : SubscriberRecord)
    (h : Event.firestoreSet k rcd ∈ (tryBody0 env g dom).events) :
    k ≠ [] ∧ rcd.token = k := by
  simp only [tryBody0] at h
  repeat' split at h
  all_goals simp_all

theorem tryBody1_write_mem (env : Env) (g : GState) (dom : Dom) (k : List Char)
    (rcd : SubscriberRecord)
    (h : Event.firestoreSet k rcd ∈ (tryBody1 env g dom).events) :
    k ≠ [] ∧ rcd.token = k := by
  simp only [tryBody1] at h
  repeat' split at h
  all_goals simp_all

theorem catchWrap_dom_tokenPreview (r : Run) :
    (catchWrap r).dom.tokenPreview = r.dom.tokenPreview := by
  unfold catchWrap
  cases h : r.thrown <;> simp [h]

theorem tryBody1_preview_of_write_error (env : Env) (g : GState) (dom : Dom)
    (e : String) (hw : env.writeResult = Except.error e) :
    (tryBody1 env g dom).dom.tokenPreview = dom.tokenPreview := by
  simp only [tryBody1, registerServiceWorker, hw]
  repeat' split
  all_goals simp_all

/-! ### Claim theorems -/

/-- C1: every run of either variant's `registerPush` returns normally —
no exception escapes — and whenever the try-block raised an error, the
returned DOM is the try-block's DOM with the failure status
`오류: <message>` written over it. -/
theorem registerPush_total_catches_all_failures (env : Env) (g : GState) (dom : Dom) :
    (registerPush000 env g dom).thrown = none ∧
    (registerPush001 env g dom).thrown = none ∧
    (∀ e, (tryBody0 env g dom).thrown = some e →
      (registerPush000 env g dom).dom =
        setStatus (tryBody0 env g dom).dom ("오류: " ++ e) false) ∧
    (∀ e, (tryBody1 env g dom).thrown = some e →
      (registerPush001 env g dom).dom =
        setStatus (tryBody1 env g dom).dom ("오류: " ++ e) false) :=
  ⟨catchWrap_thrown _, catchWrap_thrown _,
   fun e he => catchWrap_dom_of_some _ e he,
   fun e he => catchWrap_dom_of_some _ e he⟩

/-- Witness for C1: with the SDK script missing, the run still returns
normally and writes the failure status. -/
theorem registerPush_total_catches_all_failures_witness :
    (registerPush000 envNoFb gFresh domFull).thrown = none ∧
    (registerPush000 envNoFb gFresh domFull).dom =
      setStatus (tryBody0 envNoFb gFresh domFull).dom
        ("오류: " ++ "firebase SDK not loaded") false :=
  ⟨(registerPush_total_catches_all_failures envNoFb gFresh domFull).1,
   (registerPush_total_catches_all_failures envNoFb gFresh domFull).2.2.1
     "firebase SDK not loaded" rfl⟩

/-- C4: for every non-empty token, the rendered preview is the first 12
characters, then "...", then the last 8 characters; in particular the
24-character sample token renders as "abcdefghijkl...qrstuvwx". -/
theorem token_preview_first12_ellipsis_last8 (t : List Char) (dom : Dom) (el : Element)
    (ht : t ≠ []) (hel : dom.tokenPreview = some el) :
    ((setTokenPreview dom t).tokenPreview.map Element.textContent) =
      some (String.mk (t.take 12 ++ "...".data ++ t.drop (t.length - 8))) ∧
    previewString sampleToken = "abcdefghijkl...qrstuvwx" := by
  constructor
  · unfold setTokenPreview
    rw [hel]
    simp [ht, previewString_spec]
  · decide

/-- Witness for C4: the sample token rendered through `setTokenPreview`. -/
theorem token_preview_first12_ellipsis_last8_witness :
    ((setTokenPreview domFull sampleToken).tokenPreview.map Element.textContent) =
      some (String.mk (sampleToken.take 12 ++ "...".data ++
        sampleToken.drop (sampleToken.length - 8))) ∧
    previewString sampleToken = "abcdefghijkl...qrstuvwx" :=
  token_preview_first12_ellipsis_last8 sampleToken domFull ⟨"-", ""⟩ (by decide) rfl

/-- C5: the merge-write is idempotent — writing the same token twice leaves
the store as after one write — and a store holding at most one record under
a key holds exactly one after the write. -/
theorem merge_write_idempotent_single_record :
    (∀ (s : Store) (k : List Char) (r : SubscriberRecord),
        docSetMerge (docSetMerge s k r) k r = docSetMerge s k r) ∧
    (∀ (s : Store) (k : List Char) (r : SubscriberRecord),
        countKey s k ≤ 1 → countKey (docSetMerge s k r) k = 1) :=
  ⟨docSetMerge_idem, countKey_docSetMerge⟩

/-- Witness for C5: double write of the sample record into the empty store. -/
theorem merge_write_idempotent_single_record_witness :
    docSetMerge (docSetMerge [] sampleToken ⟨sampleToken, "UA", "2025-01-01T00:00:00Z"⟩)
        sampleToken ⟨sampleToken, "UA", "2025-01-01T00:00:00Z"⟩ =
      docSetMerge [] sampleToken ⟨sampleToken, "UA", "2025-01-01T00:00:00Z"⟩ ∧
    countKey (docSetMerge [] sampleToken ⟨sampleToken, "UA", "2025-01-01T00:00:00Z"⟩)
        sampleToken = 1 :=
  ⟨merge_write_idempotent_single_record.1 [] sampleToken
      ⟨sampleToken, "UA", "2025-01-01T00:00:00Z"⟩,
   merge_write_idempotent_single_record.2 [] sampleToken
      ⟨sampleToken, "UA", "2025-01-01T00:00:00Z"⟩ (by decide)⟩

/-- C6: the service worker's fetch handler responds with exactly the
network's response for the event's request, unmodified. -/
theorem sw_fetch_passthrough_identity (net : Request → Response) (event : FetchEvent) :
    swFetchListener net event = FetchAction.respondWith (net event.request) ∧
    (swFetchListener net event).response = net event.request :=
  ⟨rfl, rfl⟩

/-- C9: a missing status element, token-preview element, or button makes
the corresponding operation a no-op. -/
theorem absent_dom_elements_are_noops (dom : Dom) (msg : String) (ok : Bool) (t : List Char) :
    (dom.status = none → setStatus dom msg ok = dom) ∧
    (dom.tokenPreview = none → setTokenPreview dom t = dom) ∧
    (dom.btn = none → wireButton dom = []) := by
  refine ⟨fun h => ?_, fun h => ?_, fun h => ?_⟩
  · unfold setStatus
    rw [h]
  · unfold setTokenPreview
    rw [h]
  · unfold wireButton
    rw [h]

/-- Witness for C9: the empty DOM tolerates every operation. -/
theorem absent_dom_elements_are_noops_witness :
    setStatus domEmpty "msg" true = domEmpty ∧
    setTokenPreview domEmpty sampleToken = domEmpty ∧
    wireButton domEmpty = [] :=
  ⟨(absent_dom_elements_are_noops domEmpty "msg" true sampleToken).1 rfl,
   (absent_dom_elements_are_noops domEmpty "msg" true sampleToken).2.1 rfl,
   (absent_dom_elements_are_noops domEmpty "msg" true sampleToken).2.2 rfl⟩

/-- C2: when the permission prompt returns anything but granted, both
variants write the denied status, terminate normally, and never call
`messaging.getToken` nor write to the store. -/
theorem denied_permission_skips_token_and_write (env : Env) (g : GState) (dom : Dom)
    (hfb : env.firebaseLoaded = true) (hg : g.appInitialized = false)
    (hsw : env.swSupported = true) (hready : env.swReady = Except.ok ())
    (hreg : env.swRegister = Except.ok ())
    (hperm : env.permission ≠ Perm.granted) :
    Event.getTokenCall ∉ (registerPush000 env g dom).events ∧
    (∀ k r, Event.firestoreSet k r ∉ (registerPush000 env g dom).events) ∧
    (registerPush000 env g dom).thrown = none ∧
    (registerPush000 env g dom).dom =
      setStatus (setStatus (setStatus (setStatus dom "초기화 중..." true)
        "Service Worker 준비 대기..." true) "알림 권한 요청 중..." true)
        "알림 권한이 거부되었습니다" false ∧
    Event.getTokenCall ∉ (registerPush001 env g dom).events ∧
    (∀ k r, Event.firestoreSet k r ∉ (registerPush001 env g dom).events) ∧
    (registerPush001 env g dom).thrown = none ∧
    (registerPush001 env g dom).dom =
      setStatus (setStatus (setStatus dom "Service Worker 등록 중..." true)
        "알림 권한 요청 중..." true) "알림 권한이 거부되었습니다" false := by
  cases hp : env.permission with
  | granted => exact absurd hp hperm
  | denied =>
      simp [registerPush000, registerPush001, catchWrap, tryBody0, tryBody1,
        registerServiceWorker, initializeApp, hfb, hg, hsw, hready, hreg, hp]
  | dflt =>
      simp [registerPush000, registerPush001, catchWrap, tryBody0, tryBody1,
        registerServiceWorker, initializeApp, hfb, hg, hsw, hready, hreg, hp]

/-- Witness for C2: a concrete run with the prompt denied. -/
theorem denied_permission_skips_token_and_write_witness :
    Event.getTokenCall ∉ (registerPush000 envDenied gFresh domFull).events ∧
    (registerPush000 envDenied gFresh domFull).thrown = none ∧
    Event.getTokenCall ∉ (registerPush001 envDenied gFresh domFull).events :=
  ⟨(denied_permission_skips_token_and_write envDenied gFresh domFull
      rfl rfl rfl rfl rfl (by decide)).1,
   (denied_permission_skips_token_and_write envDenied gFresh domFull
      rfl rfl rfl rfl rfl (by decide)).2.2.1,
   (denied_permission_skips_token_and_write envDenied gFresh domFull
      rfl rfl rfl rfl rfl (by decide)).2.2.2.2.1⟩

/-- C3: when the provider returns an empty token, both variants report a
failure status and never perform the Firestore write. -/
theorem empty_token_reports_failure_no_write (env : Env) (g : GState) (dom : Dom)
    (hfb : env.firebaseLoaded = true) (hg : g.appInitialized = false)
    (hsw : env.swSupported = true) (hready : env.swReady = Except.ok ())
    (hreg : env.swRegister = Except.ok ())
    (hperm : env.permission = Perm.granted)
    (htok : env.getTokenResult = Except.ok []) :
    (∀ k r, Event.firestoreSet k r ∉ (registerPush000 env g dom).events) ∧
    (registerPush000 env g dom).thrown = none ∧
    (registerPush000 env g dom).dom =
      setStatus (setStatus (setStatus (setStatus (setStatus dom "초기화 중..." true)
        "Service Worker 준비 대기..." true) "알림 권한 요청 중..." true)
        "푸시 토큰 발급 중..." true) ("오류: " ++ "token is empty") false ∧
    (∀ k r, Event.firestoreSet k r ∉ (registerPush001 env g dom).events) ∧
    (registerPush001 env g dom).thrown = none ∧
    (registerPush001 env g dom).dom =
      setStatus (setStatus (setStatus (setStatus dom "Service Worker 등록 중..." true)
        "알림 권한 요청 중..." true) "푸시 토큰 발급 중..." true)
        "토큰 발급 실패" false := by
  simp [registerPush000, registerPush001, catchWrap, tryBody0, tryBody1,
    registerServiceWorker, initializeApp, hfb, hg, hsw, hready, hreg, hperm, htok]

/-- Witness for C3: a concrete run with an empty token. -/
theorem empty_token_reports_failure_no_write_witness :
    (∀ k r, Event.firestoreSet k r ∉ (registerPush000 envEmptyTok gFresh domFull).events) ∧
    (registerPush000 envEmptyTok gFresh domFull).thrown = none ∧
    (∀ k r, Event.firestoreSet k r ∉ (registerPush001 envEmptyTok gFresh domFull).events) :=
  ⟨(empty_token_reports_failure_no_write envEmptyTok gFresh domFull
      rfl rfl rfl rfl rfl rfl rfl).1,
   (empty_token_reports_failure_no_write envEmptyTok gFresh domFull
      rfl rfl rfl rfl rfl rfl rfl).2.1,
   (empty_token_reports_failure_no_write envEmptyTok gFresh domFull
      rfl rfl rfl rfl rfl rfl rfl).2.2.2.1⟩

/-- C7: part_000 calls `firebase.initializeApp` on every invocation, so a
second click is NOT equivalent to a first one: with every external call
succeeding, the first run completes with the success status, while the
retry hits the single-init lifecycle violation and ends in the failure
status without even reaching token acquisition. -/
theorem second_invocation_duplicate_app_failure :
    (registerPush000 envAllSuccess gFresh domFull).thrown = none ∧
    (registerPush000 envAllSuccess gFresh domFull).dom.status =
      some ⟨"상태: 등록 완료 ✅ 이제 푸시를 받을 수 있습니다!", "#7CFF7C"⟩ ∧
    (registerPush000 envAllSuccess
        (registerPush000 envAllSuccess gFresh domFull).g
        (registerPush000 envAllSuccess gFresh domFull).dom).dom.status =
      some ⟨"상태: 오류: Firebase app already initialized (duplicate-app)", "#FF7C7C"⟩ ∧
    (registerPush000 envAllSuccess
        (registerPush000 envAllSuccess gFresh domFull).g
        (registerPush000 envAllSuccess gFresh domFull).dom).events =
      [Event.consoleError "Firebase app already initialized (duplicate-app)"] ∧
    Event.getTokenCall ∉
      (registerPush000 envAllSuccess
        (registerPush000 envAllSuccess gFresh domFull).g
        (registerPush000 envAllSuccess gFresh domFull).dom).events :=
  ⟨rfl, rfl, rfl, rfl, by decide⟩

/-- C8 counterexample: in part_000 the preview is written before the
persistence step, so a run whose Firestore write fails still updates the
token-preview element (from "-" to the elided token) while the status shows
the persistence failure. -/
theorem preview_shown_despite_persistence_failure :
    (registerPush000 envWriteFail gFresh domFull).dom.tokenPreview =
      some ⟨"abcdefghijkl...qrstuvwx", ""⟩ ∧
    (registerPush000 envWriteFail gFresh domFull).dom.status =
      some ⟨"상태: 오류: network write failed", "#FF7C7C"⟩ ∧
    domFull.tokenPreview = some ⟨"-", ""⟩ ∧
    envWriteFail.writeResult = Except.error "network write failed" :=
  ⟨rfl, rfl, rfl, rfl⟩

/-- C8 amended: in the part_001 variant the token-preview element changes
only if the Firestore write succeeded. -/
theorem preview_change_requires_write_success (env : Env) (g : GState) (dom : Dom)
    (hchg : (registerPush001 env g dom).dom.tokenPreview ≠ dom.tokenPreview) :
    env.writeResult = Except.ok () := by
  rcases hw : env.writeResult with e | u
  · exfalso
    apply hchg
    show (catchWrap (tryBody1 env g dom)).dom.tokenPreview = dom.tokenPreview
    rw [catchWrap_dom_tokenPreview]
    exact tryBody1_preview_of_write_error env g dom e hw
  · cases u
    rfl

/-- Witness for C8's amended theorem: a fully successful part_001 run does
change the preview, and indeed its write succeeded. -/
theorem preview_change_requires_write_success_witness :
    envAllSuccess.writeResult = Except.ok () :=
  preview_change_requires_write_success envAllSuccess gFresh domFull (by decide)

/-- C10: every Firestore write either variant performs is keyed by a
non-empty token, and the written record's token field equals the key. -/
theorem store_writes_keyed_by_nonempty_token (env : Env) (g : GState) (dom : Dom)
    (k : List Char) (rcd : SubscriberRecord) :
    (Event.firestoreSet k rcd ∈ (registerPush000 env g dom).events →
      k ≠ [] ∧ rcd.token = k) ∧
    (Event.firestoreSet k rcd ∈ (registerPush001 env g dom).events →
      k ≠ [] ∧ rcd.token = k) := by
  constructor
  · intro hmem
    rw [show registerPush000 env g dom = catchWrap (tryBody0 env g dom) from rfl,
      catchWrap_write_mem] at hmem
    exact tryBody0_write_mem env g dom k rcd hmem
  · intro hmem
    rw [show registerPush001 env g dom = catchWrap (tryBody1 env g dom) from rfl,
      catchWrap_write_mem] at hmem
    exact tryBody1_write_mem env g dom k rcd hmem

/-- Witness for C10: the write performed by a fully successful run carries
the sample token as both key and record field. -/
theorem store_writes_keyed_by_nonempty_token_witness :
    sampleToken ≠ [] ∧
    (SubscriberRecord.mk sampleToken "UA" "2025-01-01T00:00:00Z").token = sampleToken :=
  (store_writes_keyed_by_nonempty_token envAllSuccess gFresh domFull sampleToken
      ⟨sampleToken, "UA", "2025-01-01T00:00:00Z"⟩).1 (by decide)

end FxAlert
